import Mathlib

/-!
Shallow embedding of the DobbyCaption two-stage caption pipeline
(`src/App.tsx`): the description client `analyzeImageWithQwen`, the
caption client `generateCaptionWithDobby`, and the orchestrator
`handleGenerate`. Network effects are made explicit: each client takes
the HTTP response it would observe as a parameter and returns, next to
its result, the list of network requests it issued; the orchestrator
returns the updated component state together with the combined request
trace.
-/

namespace DobbyCaption

/-- A chat message in a request payload: `{ role, content }`. -/
structure Message where
  role : String
  content : String
deriving DecidableEq, Repr

/-- One `fetch` POST to the Fireworks chat-completions endpoint: the URL,
the `Authorization` header value, and the fields of the JSON body. -/
structure FetchRequest where
  url : String
  authorization : String
  model : String
  max_tokens : Nat
  top_p : Nat
  top_k : Nat
  presence_penalty : Nat
  frequency_penalty : Nat
  temperature : ℚ
  messages : List Message
deriving DecidableEq, Repr

/-- A fetch response as the two clients consume it: the `ok` flag, the
`statusText`, the body text (read by `response.text()`), and the JSON
path `choices[0].message.content` of the parsed body (`none` when that
path is structurally absent or null). -/
structure FetchResponse where
  ok : Bool
  statusText : String
  bodyText : String
  content : Option String
deriving DecidableEq, Repr

/-- `import.meta.env`: the two credentials, `none` when undefined. -/
structure Env where
  VITE_QWEN_KEY : Option String
  VITE_DOBBY_KEY : Option String
deriving DecidableEq, Repr

/-- JavaScript falsiness of a possibly-undefined string value:
`!v` is true when `v` is undefined or the empty string. -/
def isFalsy : Option String → Bool
  | none => true
  | some s => s.isEmpty

/-- JavaScript `a || b` where `a` is a possibly-absent string: yields `b`
when `a` is absent or falsy (empty). Models
`data.choices?.[0]?.message?.content || "..."`. -/
def jsOr (a : Option String) (b : String) : String :=
  match a with
  | none => b
  | some s => if s.isEmpty then b else s

/-- JavaScript `a ?? b` where `a` is a possibly-absent string: yields `b`
only when `a` is null or undefined. Models
`data.choices?.[0]?.message?.content ?? "..."`. -/
def jsNullish (a : Option String) (b : String) : String :=
  match a with
  | none => b
  | some s => s

/-- A selected image file; `dataUrl` is the string that
`FileReader.readAsDataURL` yields for it on a successful read. -/
structure ImageFile where
  dataUrl : String
deriving DecidableEq, Repr

/-- `fileToBase64`: resolves with the reader's data-URL result. -/
def fileToBase64 (file : ImageFile) : String :=
  file.dataUrl

/-- The single Fireworks inference endpoint URL both clients POST to. -/
def fireworksUrl : String :=
  "https://api.fireworks.ai/inference/v1/chat/completions"

/-- Model identifier of the description (vision) request. -/
def qwenModel : String :=
  "accounts/fireworks/models/qwen2p5-vl-32b-instruct"

/-- Model identifier of the caption request. -/
def dobbyModel : String :=
  "accounts/sentientfoundation-serverless/models/dobby-mini-unhinged-plus-llama-3-1-8b"

/-- The fixed system instruction of the description request. -/
def qwenSystemContent : String :=
  "You are a visual captioning assistant. For the given image, summarize only the key subjects and salient objects or actions that define the main event or scene. Ignore minor background details. Keep description clear, concise, and focused on what stands out most."

/-- The tone-parameterized system instruction of the caption request
(a template literal, so it keeps its leading and trailing newlines). -/
def dobbySystemPrompt (tone : String) : String :=
  "\nYou are CaptionDobby. Given a visual scene description, create a " ++ tone ++
    ", meme-worthy caption in 25 words or less.\nMake it clever and instantly shareable.\n"

/-- The request `analyzeImageWithQwen` sends: fixed model and sampling
parameters, the fixed system instruction, and a user message embedding
the encoded image behind an `<image>` tag. -/
def qwenRequest (apiKey base64Image : String) : FetchRequest :=
  { url := fireworksUrl
    authorization := "Bearer " ++ apiKey
    model := qwenModel
    max_tokens := 4096
    top_p := 1
    top_k := 40
    presence_penalty := 0
    frequency_penalty := 0
    temperature := 6/10
    messages :=
      [ { role := "system", content := qwenSystemContent },
        { role := "user", content := "<image>" ++ base64Image } ] }

/-- The request `generateCaptionWithDobby` sends: fixed model and
sampling parameters, the tone-conditioned system instruction, and the
scene description as the user message. -/
def dobbyRequest (apiKey tone description : String) : FetchRequest :=
  { url := fireworksUrl
    authorization := "Bearer " ++ apiKey
    model := dobbyModel
    max_tokens := 4096
    top_p := 1
    top_k := 40
    presence_penalty := 0
    frequency_penalty := 0
    temperature := 6/10
    messages :=
      [ { role := "system", content := dobbySystemPrompt tone },
        { role := "user", content := description } ] }

/-- `analyzeImageWithQwen`: throws when the Qwen credential is falsy,
otherwise encodes the image, issues the description request, throws with
the response body on a non-ok status, and on success extracts
`choices[0].message.content` with the `||`-fallback
`"A visually interesting image"`. Returns the result (`Except.error` for
a thrown `Error`'s message) and the list of network calls issued. -/
def analyzeImageWithQwen (env : Env) (image : ImageFile) (response : FetchResponse) :
    Except String String × List FetchRequest :=
  if isFalsy env.VITE_QWEN_KEY then
    (Except.error "Qwen API key is missing", [])
  else
    let base64Image := fileToBase64 image
    let request := qwenRequest (env.VITE_QWEN_KEY.getD "") base64Image
    if !response.ok then
      (Except.error ("Qwen API error: " ++ response.bodyText), [request])
    else
      (Except.ok (jsOr response.content "A visually interesting image"), [request])

/-- `generateCaptionWithDobby`: throws when the Dobby credential is
falsy, otherwise issues the caption request, throws with the response
`statusText` on a non-ok status, and on success extracts
`choices[0].message.content` with the `??`-fallback
`"No caption generated."`. Returns the result and the list of network
calls issued. -/
def generateCaptionWithDobby (env : Env) (tone description : String)
    (response : FetchResponse) : Except String String × List FetchRequest :=
  if isFalsy env.VITE_DOBBY_KEY then
    (Except.error "Dobby API key is missing", [])
  else
    let request := dobbyRequest (env.VITE_DOBBY_KEY.getD "") tone description
    if !response.ok then
      (Except.error ("Dobby API error: " ++ response.statusText), [request])
    else
      (Except.ok (jsNullish response.content "No caption generated."), [request])

/-- The component state held in the `useState` hooks of `App`. -/
structure AppState where
  imagePreview : String
  imageFile : Option ImageFile
  caption : String
  loading : Bool
  tone : String
deriving DecidableEq, Repr

/-- `handleGenerate`: a no-op when no image file is selected; otherwise
runs the description client then the caption client, sets the caption to
the result or to `"Error: " ++ message` when either stage throws, and
clears `loading`. The two `FetchResponse` arguments are the responses
the respective network calls would observe. Returns the final state and
the combined request trace. -/
def handleGenerate (s : AppState) (env : Env)
    (qwenResponse dobbyResponse : FetchResponse) : AppState × List FetchRequest :=
  match s.imageFile with
  | none => (s, [])
  | some imageFile =>
      match analyzeImageWithQwen env imageFile qwenResponse with
      | (Except.error e, calls₁) =>
          ({ s with caption := "Error: " ++ e, loading := false }, calls₁)
      | (Except.ok description, calls₁) =>
          match generateCaptionWithDobby env s.tone description dobbyResponse with
          | (Except.error e, calls₂) =>
              ({ s with caption := "Error: " ++ e, loading := false }, calls₁ ++ calls₂)
          | (Except.ok c, calls₂) =>
              ({ s with caption := c, loading := false }, calls₁ ++ calls₂)

/-- The pipeline's terminal value for a run on image `f` with tone
`tone`: the description stage's result bound into the caption stage. -/
def pipelineResult (env : Env) (f : ImageFile) (tone : String)
    (qwenResponse dobbyResponse : FetchResponse) : Except String String :=
  (analyzeImageWithQwen env f qwenResponse).1.bind
    fun d => (generateCaptionWithDobby env tone d dobbyResponse).1

/-- A network call belongs to the caption stage exactly when it targets
the Dobby model. -/
def isDobbyCall (r : FetchRequest) : Bool :=
  r.model = dobbyModel

/-! Concrete sample values used by the witness theorems. -/

/-- An environment with both credentials configured. -/
def envBoth : Env :=
  { VITE_QWEN_KEY := some "qwen-key", VITE_DOBBY_KEY := some "dobby-key" }

/-- An environment with the Qwen credential undefined. -/
def envNoQwen : Env :=
  { VITE_QWEN_KEY := none, VITE_DOBBY_KEY := some "dobby-key" }

/-- An environment with the Dobby credential undefined. -/
def envNoDobby : Env :=
  { VITE_QWEN_KEY := some "qwen-key", VITE_DOBBY_KEY := none }

/-- A sample selected image file. -/
def sampleImage : ImageFile :=
  { dataUrl := "data:image/png;base64,AAAA" }

/-- A component state with `sampleImage` selected and the default tone. -/
def sampleState : AppState :=
  { imagePreview := "blob:preview"
    imageFile := some sampleImage
    caption := ""
    loading := false
    tone := "witty" }

/-- A component state with no image selected. -/
def emptyState : AppState :=
  { imagePreview := ""
    imageFile := none
    caption := ""
    loading := false
    tone := "witty" }

/-- A successful response whose parsed content is `c`. -/
def okResponse (c : Option String) : FetchResponse :=
  { ok := true, statusText := "OK", bodyText := "", content := c }

/-- A failed response (non-ok status). -/
def badResponse : FetchResponse :=
  { ok := false
    statusText := "Unauthorized"
    bodyText := "invalid api key"
    content := none }

/-- C8: invoking `handleGenerate` while no image file is selected is a
no-op — no stage is invoked, no network call is issued, and the whole
observable state (caption, loading flag, tone, selected image) is
returned unchanged. -/
theorem generate_without_image_is_noop (env : Env) (s : AppState)
    (qr dr : FetchResponse) (hf : s.imageFile = none) :
    handleGenerate s env qr dr = (s, []) := by
  simp [handleGenerate, hf]

/-- Witness for C8 at a concrete empty state. -/
theorem generate_without_image_is_noop_witness :
    emptyState.imageFile = none ∧
      handleGenerate emptyState envBoth badResponse badResponse = (emptyState, []) :=
  ⟨rfl, generate_without_image_is_noop envBoth emptyState badResponse badResponse rfl⟩

/-- C5: with the Dobby credential absent but the image valid and the
description stage successful, the run ends with the literal caption
`"Error: Dobby API key is missing"`, loading is cleared, and the trace
holds no caption-stage (Dobby) network call. -/
theorem missing_caption_credential_fails_without_network_call
    (env : Env) (s : AppState) (f : ImageFile) (qr dr : FetchResponse)
    (hf : s.imageFile = some f)
    (hq : isFalsy env.VITE_QWEN_KEY = false)
    (hd : isFalsy env.VITE_DOBBY_KEY = true)
    (hok : qr.ok = true) :
    (handleGenerate s env qr dr).1.caption = "Error: Dobby API key is missing" ∧
    (handleGenerate s env qr dr).1.loading = false ∧
    List.filter isDobbyCall (handleGenerate s env qr dr).2 = [] := by
  simp [handleGenerate, hf, analyzeImageWithQwen, generateCaptionWithDobby,
    hq, hd, hok, isDobbyCall, qwenRequest]
  decide

/-- Witness for C5: concrete run with the Dobby key undefined. -/
theorem missing_caption_credential_witness :
    sampleState.imageFile = some sampleImage ∧
    isFalsy envNoDobby.VITE_QWEN_KEY = false ∧
    isFalsy envNoDobby.VITE_DOBBY_KEY = true ∧
    (okResponse (some "a dog on a skateboard")).ok = true ∧
    ((handleGenerate sampleState envNoDobby (okResponse (some "a dog on a skateboard"))
        (okResponse (some "cap"))).1.caption = "Error: Dobby API key is missing" ∧
     (handleGenerate sampleState envNoDobby (okResponse (some "a dog on a skateboard"))
        (okResponse (some "cap"))).1.loading = false ∧
     List.filter isDobbyCall
       (handleGenerate sampleState envNoDobby (okResponse (some "a dog on a skateboard"))
         (okResponse (some "cap"))).2 = []) :=
  ⟨rfl, rfl, rfl, rfl,
    missing_caption_credential_fails_without_network_call envNoDobby sampleState
      sampleImage (okResponse (some "a dog on a skateboard")) (okResponse (some "cap"))
      rfl rfl rfl rfl⟩

/-- C7: on a non-ok HTTP status, the description client fails with a
message carrying the response body text, and the caption client fails
with a message carrying the response status text. -/
theorem remote_service_error_carries_diagnostics
    (env : Env) (img : ImageFile) (tone description : String)
    (qr dr : FetchResponse)
    (hq : isFalsy env.VITE_QWEN_KEY = false)
    (hd : isFalsy env.VITE_DOBBY_KEY = false)
    (hqok : qr.ok = false) (hdok : dr.ok = false) :
    (analyzeImageWithQwen env img qr).1 =
      Except.error ("Qwen API error: " ++ qr.bodyText) ∧
    (generateCaptionWithDobby env tone description dr).1 =
      Except.error ("Dobby API error: " ++ dr.statusText) := by
  simp [analyzeImageWithQwen, generateCaptionWithDobby, hq, hd, hqok, hdok]

/-- Witness for C7 at a concrete failed response. -/
theorem remote_service_error_witness :
    isFalsy envBoth.VITE_QWEN_KEY = false ∧
    isFalsy envBoth.VITE_DOBBY_KEY = false ∧
    badResponse.ok = false ∧
    ((analyzeImageWithQwen envBoth sampleImage badResponse).1 =
       Except.error ("Qwen API error: " ++ badResponse.bodyText) ∧
     (generateCaptionWithDobby envBoth "witty" "a dog" badResponse).1 =
       Except.error ("Dobby API error: " ++ badResponse.statusText)) :=
  ⟨rfl, rfl, rfl,
    remote_service_error_carries_diagnostics envBoth sampleImage "witty" "a dog"
      badResponse badResponse rfl rfl rfl rfl⟩

/-- C9: both clients' requests carry the same fixed sampling parameters
— temperature 0.6, top_p 1, top_k 40, zero penalties, and the bounded
max_tokens 4096 — for every credential, image, tone and description. -/
theorem sampling_parameters_fixed (apiKey base64Image tone description : String) :
    ((qwenRequest apiKey base64Image).temperature = 6/10 ∧
     (qwenRequest apiKey base64Image).top_p = 1 ∧
     (qwenRequest apiKey base64Image).top_k = 40 ∧
     (qwenRequest apiKey base64Image).presence_penalty = 0 ∧
     (qwenRequest apiKey base64Image).frequency_penalty = 0 ∧
     (qwenRequest apiKey base64Image).max_tokens = 4096) ∧
    ((dobbyRequest apiKey tone description).temperature = 6/10 ∧
     (dobbyRequest apiKey tone description).top_p = 1 ∧
     (dobbyRequest apiKey tone description).top_k = 40 ∧
     (dobbyRequest apiKey tone description).presence_penalty = 0 ∧
     (dobbyRequest apiKey tone description).frequency_penalty = 0 ∧
     (dobbyRequest apiKey tone description).max_tokens = 4096) :=
  ⟨⟨rfl, rfl, rfl, rfl, rfl, rfl⟩, ⟨rfl, rfl, rfl, rfl, rfl, rfl⟩⟩

/-- C1: when the description stage fails hard — the Qwen credential is
falsy, or the description response has a non-ok status — the caption
client is never invoked (no Dobby network call appears in the trace) and
the run terminates failed: loading cleared and the caption an
`"Error: "`-prefixed string. -/
theorem description_failure_skips_caption_client
    (env : Env) (s : AppState) (f : ImageFile) (qr dr : FetchResponse)
    (hf : s.imageFile = some f)
    (hfail : isFalsy env.VITE_QWEN_KEY = true ∨ qr.ok = false) :
    List.filter isDobbyCall (handleGenerate s env qr dr).2 = [] ∧
    (handleGenerate s env qr dr).1.loading = false ∧
    ∃ e, (handleGenerate s env qr dr).1.caption = "Error: " ++ e := by
  rcases hfail with h | h
  · simp [handleGenerate, hf, analyzeImageWithQwen, h]
    exact ⟨"Qwen API key is missing", by decide⟩
  · by_cases hk : isFalsy env.VITE_QWEN_KEY = true
    · simp [handleGenerate, hf, analyzeImageWithQwen, hk]
      exact ⟨"Qwen API key is missing", by decide⟩
    · simp only [Bool.not_eq_true] at hk
      refine ⟨?_, ?_, ?_⟩ <;>
        simp [handleGenerate, hf, analyzeImageWithQwen, hk, h, isDobbyCall, qwenRequest]
      decide

/-- Witness for C1: concrete run whose description response is non-ok. -/
theorem description_failure_skips_caption_client_witness :
    sampleState.imageFile = some sampleImage ∧
    badResponse.ok = false ∧
    (List.filter isDobbyCall
        (handleGenerate sampleState envBoth badResponse (okResponse (some "cap"))).2 = [] ∧
     (handleGenerate sampleState envBoth badResponse (okResponse (some "cap"))).1.loading
        = false ∧
     ∃ e, (handleGenerate sampleState envBoth badResponse
        (okResponse (some "cap"))).1.caption = "Error: " ++ e) :=
  ⟨rfl, rfl,
    description_failure_skips_caption_client envBoth sampleState sampleImage
      badResponse (okResponse (some "cap")) rfl (Or.inr rfl)⟩

/-- C2: every run started with an image present ends with loading
cleared and exactly one terminal outcome — either the pipeline result is
a caption and the state shows it, or the pipeline result is an error and
the state shows `"Error: " ++ message` — never both, never neither. -/
theorem run_reaches_exactly_one_terminal_state
    (env : Env) (s : AppState) (f : ImageFile) (qr dr : FetchResponse)
    (hf : s.imageFile = some f) :
    (handleGenerate s env qr dr).1.loading = false ∧
    Xor'
      (∃ c, pipelineResult env f s.tone qr dr = Except.ok c ∧
        (handleGenerate s env qr dr).1.caption = c)
      (∃ e, pipelineResult env f s.tone qr dr = Except.error e ∧
        (handleGenerate s env qr dr).1.caption = "Error: " ++ e) := by
  rcases hq : analyzeImageWithQwen env f qr with ⟨rq, cq⟩
  cases rq with
  | error e =>
      simp [handleGenerate, hf, hq, pipelineResult, Xor', Except.bind]
  | ok d =>
      rcases hd : generateCaptionWithDobby env s.tone d dr with ⟨rd, cd⟩
      cases rd with
      | error e => simp [handleGenerate, hf, hq, hd, pipelineResult, Xor', Except.bind]
      | ok c => simp [handleGenerate, hf, hq, hd, pipelineResult, Xor', Except.bind]

/-- Witness for C2: concrete successful run. -/
theorem run_reaches_exactly_one_terminal_state_witness :
    sampleState.imageFile = some sampleImage ∧
    ((handleGenerate sampleState envBoth (okResponse (some "desc"))
        (okResponse (some "cap"))).1.loading = false ∧
     Xor'
       (∃ c, pipelineResult envBoth sampleImage sampleState.tone
           (okResponse (some "desc")) (okResponse (some "cap")) = Except.ok c ∧
         (handleGenerate sampleState envBoth (okResponse (some "desc"))
           (okResponse (some "cap"))).1.caption = c)
       (∃ e, pipelineResult envBoth sampleImage sampleState.tone
           (okResponse (some "desc")) (okResponse (some "cap")) = Except.error e ∧
         (handleGenerate sampleState envBoth (okResponse (some "desc"))
           (okResponse (some "cap"))).1.caption = "Error: " ++ e)) :=
  ⟨rfl,
    run_reaches_exactly_one_terminal_state envBoth sampleState sampleImage
      (okResponse (some "desc")) (okResponse (some "cap")) rfl⟩

/-- C3: a success response whose `choices[0].message.content` path is
structurally absent does not fail the description client: it returns the
fixed fallback description, and the pipeline goes on to issue the
caption-stage network call with that fallback as the user message. -/
theorem description_content_absent_uses_fallback
    (env : Env) (s : AppState) (f : ImageFile) (qr dr : FetchResponse)
    (hf : s.imageFile = some f)
    (hq : isFalsy env.VITE_QWEN_KEY = false)
    (hd : isFalsy env.VITE_DOBBY_KEY = false)
    (hok : qr.ok = true) (hc : qr.content = none) :
    (analyzeImageWithQwen env f qr).1 = Except.ok "A visually interesting image" ∧
    ((handleGenerate s env qr dr).2)[1]? =
      some (dobbyRequest (env.VITE_DOBBY_KEY.getD "") s.tone
        "A visually interesting image") := by
  by_cases hdr : dr.ok = true <;>
    simp [handleGenerate, hf, analyzeImageWithQwen, generateCaptionWithDobby,
      hq, hd, hok, hc, hdr, jsOr]

/-- Witness for C3: concrete run whose description response parses to
nothing. -/
theorem description_content_absent_uses_fallback_witness :
    sampleState.imageFile = some sampleImage ∧
    isFalsy envBoth.VITE_QWEN_KEY = false ∧
    isFalsy envBoth.VITE_DOBBY_KEY = false ∧
    (okResponse none).ok = true ∧
    (okResponse none).content = none ∧
    ((analyzeImageWithQwen envBoth sampleImage (okResponse none)).1 =
       Except.ok "A visually interesting image" ∧
     ((handleGenerate sampleState envBoth (okResponse none)
         (okResponse (some "cap"))).2)[1]? =
       some (dobbyRequest (envBoth.VITE_DOBBY_KEY.getD "") sampleState.tone
         "A visually interesting image")) :=
  ⟨rfl, rfl, rfl, rfl, rfl,
    description_content_absent_uses_fallback envBoth sampleState sampleImage
      (okResponse none) (okResponse (some "cap")) rfl rfl rfl rfl rfl⟩

/-- C4: a success response from the caption endpoint whose
`choices[0].message.content` path is structurally absent still ends the
run successfully with the fixed fallback caption literal, not with an
error string. -/
theorem caption_content_absent_uses_fallback
    (env : Env) (s : AppState) (f : ImageFile) (qr dr : FetchResponse)
    (hf : s.imageFile = some f)
    (hq : isFalsy env.VITE_QWEN_KEY = false)
    (hd : isFalsy env.VITE_DOBBY_KEY = false)
    (hqok : qr.ok = true) (hdok : dr.ok = true) (hc : dr.content = none) :
    pipelineResult env f s.tone qr dr = Except.ok "No caption generated." ∧
    (handleGenerate s env qr dr).1.caption = "No caption generated." ∧
    (handleGenerate s env qr dr).1.loading = false := by
  simp [pipelineResult, handleGenerate, hf, analyzeImageWithQwen,
    generateCaptionWithDobby, hq, hd, hqok, hdok, hc, jsNullish, Except.bind]

/-- Witness for C4: concrete run whose caption response parses to
nothing. -/
theorem caption_content_absent_uses_fallback_witness :
    sampleState.imageFile = some sampleImage ∧
    (okResponse none).ok = true ∧
    (okResponse none).content = none ∧
    (pipelineResult envBoth sampleImage sampleState.tone (okResponse (some "desc"))
       (okResponse none) = Except.ok "No caption generated." ∧
     (handleGenerate sampleState envBoth (okResponse (some "desc"))
        (okResponse none)).1.caption = "No caption generated." ∧
     (handleGenerate sampleState envBoth (okResponse (some "desc"))
        (okResponse none)).1.loading = false) :=
  ⟨rfl, rfl, rfl,
    caption_content_absent_uses_fallback envBoth sampleState sampleImage
      (okResponse (some "desc")) (okResponse none) rfl rfl rfl rfl rfl rfl⟩

/-- C10: the two clients treat an empty-string content field
differently — the description client substitutes its fallback (falsy
check), while the caption client returns the empty string unchanged
(nullish check), so the run ends with an empty caption. -/
theorem empty_content_fallback_asymmetry
    (env : Env) (s : AppState) (f : ImageFile) (qr dr : FetchResponse)
    (hf : s.imageFile = some f)
    (hq : isFalsy env.VITE_QWEN_KEY = false)
    (hd : isFalsy env.VITE_DOBBY_KEY = false)
    (hqok : qr.ok = true) (hqc : qr.content = some "")
    (hdok : dr.ok = true) (hdc : dr.content = some "") :
    (analyzeImageWithQwen env f qr).1 = Except.ok "A visually interesting image" ∧
    (generateCaptionWithDobby env s.tone "A visually interesting image" dr).1 =
      Except.ok "" ∧
    (handleGenerate s env qr dr).1.caption = "" ∧
    (handleGenerate s env qr dr).1.loading = false := by
  simp [handleGenerate, hf, analyzeImageWithQwen, generateCaptionWithDobby,
    hq, hd, hqok, hqc, hdok, hdc, jsOr, jsNullish, String.isEmpty]

/-- Witness for C10: concrete run where both endpoints return the empty
string as content. -/
theorem empty_content_fallback_asymmetry_witness :
    sampleState.imageFile = some sampleImage ∧
    (okResponse (some "")).ok = true ∧
    (okResponse (some "")).content = some "" ∧
    ((analyzeImageWithQwen envBoth sampleImage (okResponse (some ""))).1 =
       Except.ok "A visually interesting image" ∧
     (generateCaptionWithDobby envBoth sampleState.tone "A visually interesting image"
        (okResponse (some ""))).1 = Except.ok "" ∧
     (handleGenerate sampleState envBoth (okResponse (some ""))
        (okResponse (some ""))).1.caption = "" ∧
     (handleGenerate sampleState envBoth (okResponse (some ""))
        (okResponse (some ""))).1.loading = false) :=
  ⟨rfl, rfl, rfl,
    empty_content_fallback_asymmetry envBoth sampleState sampleImage
      (okResponse (some "")) (okResponse (some "")) rfl rfl rfl rfl rfl rfl rfl⟩

/-- C6: two runs over the same image and responses that differ only in
the selected tone issue an identical description-stage request (the
first trace entry), and their caption-stage requests (the second trace
entries) agree on every component — URL, credential header, model,
sampling parameters, and the user message carrying the same scene
description — except the system-instruction content, which is the tone
template instantiated at each run's tone. -/
theorem tone_affects_only_caption_system_instruction
    (env : Env) (s : AppState) (t₁ t₂ : String) (qr dr : FetchResponse)
    (r₁ r₂ : FetchRequest)
    (h₁ : ((handleGenerate { s with tone := t₁ } env qr dr).2)[1]? = some r₁)
    (h₂ : ((handleGenerate { s with tone := t₂ } env qr dr).2)[1]? = some r₂) :
    ((handleGenerate { s with tone := t₁ } env qr dr).2)[0]? =
      ((handleGenerate { s with tone := t₂ } env qr dr).2)[0]? ∧
    r₁.url = r₂.url ∧
    r₁.authorization = r₂.authorization ∧
    r₁.model = r₂.model ∧
    r₁.max_tokens = r₂.max_tokens ∧
    r₁.top_p = r₂.top_p ∧
    r₁.top_k = r₂.top_k ∧
    r₁.presence_penalty = r₂.presence_penalty ∧
    r₁.frequency_penalty = r₂.frequency_penalty ∧
    r₁.temperature = r₂.temperature ∧
    ∃ d, r₁.messages = [{ role := "system", content := dobbySystemPrompt t₁ },
                        { role := "user", content := d }] ∧
         r₂.messages = [{ role := "system", content := dobbySystemPrompt t₂ },
                        { role := "user", content := d }] := by
  cases hf : s.imageFile with
  | none => simp [handleGenerate, hf] at h₁
  | some f =>
      cases hqk : isFalsy env.VITE_QWEN_KEY with
      | true => simp [handleGenerate, hf, analyzeImageWithQwen, hqk] at h₁
      | false =>
          cases hqok : qr.ok with
          | false =>
              simp [handleGenerate, hf, analyzeImageWithQwen, hqk, hqok] at h₁
          | true =>
              cases hdk : isFalsy env.VITE_DOBBY_KEY with
              | true =>
                  simp [handleGenerate, hf, analyzeImageWithQwen,
                    generateCaptionWithDobby, hqk, hqok, hdk] at h₁
              | false =>
                  cases hdok : dr.ok with
                  | false =>
                      simp [handleGenerate, hf, analyzeImageWithQwen,
                        generateCaptionWithDobby, hqk, hqok, hdk, hdok] at h₁ h₂
                      subst h₁
                      subst h₂
                      exact ⟨by simp [handleGenerate, hf, analyzeImageWithQwen,
                          generateCaptionWithDobby, hqk, hqok, hdk, hdok],
                        rfl, rfl, rfl, rfl, rfl, rfl, rfl, rfl, rfl,
                        jsOr qr.content "A visually interesting image", rfl, rfl⟩
                  | true =>
                      simp [handleGenerate, hf, analyzeImageWithQwen,
                        generateCaptionWithDobby, hqk, hqok, hdk, hdok] at h₁ h₂
                      subst h₁
                      subst h₂
                      exact ⟨by simp [handleGenerate, hf, analyzeImageWithQwen,
                          generateCaptionWithDobby, hqk, hqok, hdk, hdok],
                        rfl, rfl, rfl, rfl, rfl, rfl, rfl, rfl, rfl,
                        jsOr qr.content "A visually interesting image", rfl, rfl⟩

/-- Witness for C6: two concrete runs with tones witty and brutal. -/
theorem tone_affects_only_caption_system_instruction_witness :
    ((handleGenerate { sampleState with tone := "witty" } envBoth
        (okResponse (some "desc")) (okResponse (some "cap"))).2)[1]? =
      some (dobbyRequest "dobby-key" "witty" "desc") ∧
    ((handleGenerate { sampleState with tone := "brutal" } envBoth
        (okResponse (some "desc")) (okResponse (some "cap"))).2)[1]? =
      some (dobbyRequest "dobby-key" "brutal" "desc") ∧
    (((handleGenerate { sampleState with tone := "witty" } envBoth
         (okResponse (some "desc")) (okResponse (some "cap"))).2)[0]? =
       ((handleGenerate { sampleState with tone := "brutal" } envBoth
         (okResponse (some "desc")) (okResponse (some "cap"))).2)[0]? ∧
     (dobbyRequest "dobby-key" "witty" "desc").url =
       (dobbyRequest "dobby-key" "brutal" "desc").url ∧
     (dobbyRequest "dobby-key" "witty" "desc").authorization =
       (dobbyRequest "dobby-key" "brutal" "desc").authorization ∧
     (dobbyRequest "dobby-key" "witty" "desc").model =
       (dobbyRequest "dobby-key" "brutal" "desc").model ∧
     (dobbyRequest "dobby-key" "witty" "desc").max_tokens =
       (dobbyRequest "dobby-key" "brutal" "desc").max_tokens ∧
     (dobbyRequest "dobby-key" "witty" "desc").top_p =
       (dobbyRequest "dobby-key" "brutal" "desc").top_p ∧
     (dobbyRequest "dobby-key" "witty" "desc").top_k =
       (dobbyRequest "dobby-key" "brutal" "desc").top_k ∧
     (dobbyRequest "dobby-key" "witty" "desc").presence_penalty =
       (dobbyRequest "dobby-key" "brutal" "desc").presence_penalty ∧
     (dobbyRequest "dobby-key" "witty" "desc").frequency_penalty =
       (dobbyRequest "dobby-key" "brutal" "desc").frequency_penalty ∧
     (dobbyRequest "dobby-key" "witty" "desc").temperature =
       (dobbyRequest "dobby-key" "brutal" "desc").temperature ∧
     ∃ d, (dobbyRequest "dobby-key" "witty" "desc").messages =
            [{ role := "system", content := dobbySystemPrompt "witty" },
             { role := "user", content := d }] ∧
          (dobbyRequest "dobby-key" "brutal" "desc").messages =
            [{ role := "system", content := dobbySystemPrompt "brutal" },
             { role := "user", content := d }]) :=
  ⟨rfl, rfl,
    tone_affects_only_caption_system_instruction envBoth sampleState "witty" "brutal"
      (okResponse (some "desc")) (okResponse (some "cap"))
      (dobbyRequest "dobby-key" "witty" "desc")
      (dobbyRequest "dobby-key" "brutal" "desc") rfl rfl⟩

end DobbyCaption
